import Mathlib

/-!
Shallow embedding of the pool-quotation calculator (`kp_profiles.py` and
`app.py`).  All Python floats are modelled as exact rationals (`ℚ`); every
decimal literal of the source (`0.55`, `2.25`, …) is an exact decimal
rational, so the arithmetic identities proved below are the identities of
the source formulas.  `math.ceil` is `Int.ceil`, Python's builtin `round`
(round-half-to-even) is `pyRound` below.  Dictionaries returned by the
Python functions are modelled as structures carrying the same numeric
fields; the formatted display strings of the source (for example
`"32.0 м²"`) are decimal renderings of these same numbers and carry no
additional information.
-/

/-- `basic_dimensions` block of a profile in `kp_profiles.py`. -/
@[ext] structure BasicDims where
  water_surface : ℚ
  perimeter : ℚ
  wall_area : ℚ
  finishing_area : ℚ
  water_volume : ℚ
deriving DecidableEq

/-- `dimensions` block of a profile (all in millimetres). -/
structure Dims where
  length : ℚ
  width : ℚ
  depth : ℚ
  wall_thickness : ℚ
deriving DecidableEq

/-- `costs` block of a profile (whole roubles). -/
structure Costs where
  materials_total : ℤ
  works_total : ℤ
  equipment_total : ℤ
  total : ℤ
deriving DecidableEq

/-- `kp_params` block (present only on KP1). -/
structure KpParams where
  coping_stone_count : ℤ
  lining_area : ℚ
  earth_volume : ℚ
  trucks_count : ℤ
  formwork_area : ℚ
  plywood_sheets : ℤ
  rebar_weight : ℚ
deriving DecidableEq

/-- A commercial-proposal profile record of `kp_profiles.py`. -/
structure Profile where
  name : String
  dimensions : Dims
  basic_dimensions : BasicDims
  costs : Costs
  lining_price : ℚ
  frame_price : ℚ
  concrete_price : ℚ
  materials_prices : List (String × ℚ)
  works_prices : List (String × ℚ)
  kp_params : Option KpParams
deriving DecidableEq

/-- `KP1` of `kp_profiles.py` (lines 7-68). -/
def KP1 : Profile :=
  { name := "КП №1 (8000x4000x1500)"
    dimensions := ⟨8000, 4000, 1650, 200⟩
    basic_dimensions := ⟨32.0, 26.0, 39.6, 71.6, 48.0⟩
    costs := ⟨817876, 931860, 1149928, 2899664⟩
    lining_price := 5400
    frame_price := 0
    concrete_price := 6650
    materials_prices :=
      [("concrete", 6650), ("concrete_m200", 5750), ("rebar", 65000),
       ("pvc_film", 5400), ("tile", 2500), ("grout", 300),
       ("waterproofing", 800), ("tile_adhesive", 400),
       ("coping_stone", 2600), ("earthworks", 400)]
    works_prices :=
      [("earthworks", 400), ("concrete_works", 7000), ("reinforcement", 1750),
       ("waterproofing", 800), ("tile_laying", 2500), ("grouting", 300),
       ("equipment_installation", 186000), ("commissioning", 0),
       ("pool_works_price", 13000)]
    kp_params := some ⟨46, 90, 122, 15, 89, 48, 1.8⟩ }

/-- `KP2` of `kp_profiles.py` (lines 70-116). -/
def KP2 : Profile :=
  { name := "КП №2 (8000x3000x1500)"
    dimensions := ⟨8000, 3000, 1500, 200⟩
    basic_dimensions := ⟨23.0, 22.0, 33.0, 57.0, 34.5⟩
    costs := ⟨583398, 615690, 929369, 2128457⟩
    lining_price := 0
    frame_price := 0
    concrete_price := 6650
    materials_prices :=
      [("concrete", 5000), ("rebar", 80000), ("pvc_film", 1200),
       ("tile", 2500), ("grout", 300), ("waterproofing", 800),
       ("tile_adhesive", 400)]
    works_prices :=
      [("earthworks", 1500), ("concrete_works", 3500), ("reinforcement", 2500),
       ("waterproofing", 800), ("tile_laying", 2500), ("grouting", 300),
       ("equipment_installation", 15000), ("commissioning", 20000),
       ("pool_works_price", 10800)]
    kp_params := none }

/-- `KP3` of `kp_profiles.py` (lines 118-164). -/
def KP3 : Profile :=
  { name := "КП №3 (8000x3000x1500) - Упрощенный"
    dimensions := ⟨8000, 3000, 1500, 200⟩
    basic_dimensions := ⟨23.0, 22.0, 33.0, 57.0, 34.5⟩
    costs := ⟨320631, 394284, 728694, 1443609⟩
    lining_price := 0
    frame_price := 0
    concrete_price := 4800
    materials_prices :=
      [("concrete", 4800), ("rebar", 75000), ("pvc_film", 1100),
       ("tile", 2300), ("grout", 280), ("waterproofing", 750),
       ("tile_adhesive", 380)]
    works_prices :=
      [("earthworks", 1400), ("concrete_works", 3300), ("reinforcement", 2300),
       ("waterproofing", 750), ("tile_laying", 2300), ("grouting", 280),
       ("equipment_installation", 14000), ("commissioning", 18000),
       ("pool_works_price", 6900)]
    kp_params := none }

/-- The module-level dict `PROFILES` of `kp_profiles.py` (lines 167-171). -/
def PROFILES : List (String × Profile) := [("kp1", KP1), ("kp2", KP2), ("kp3", KP3)]

/-- Possible Python values passed as `profile_id`: a string, a dict with an
`"id"` entry (itself such a value), a dict without an `"id"` entry, or any
other object. -/
inductive ProfileIdArg where
  | str (s : String)
  | dictWithId (idVal : ProfileIdArg)
  | dictNoId
  | other
deriving DecidableEq

/-- `get_profile` of `kp_profiles.py` (lines 173-199), generalised over the
profile table (the Python function reads the module-level `PROFILES`; the
table is threaded explicitly so that module state can be made visible).
If `profile_id` is a dict its `"id"` entry is extracted (default `"kp1"`);
a non-string id becomes `"kp1"`; an id absent from the table yields `KP1`.
The Python body ends in a catch-all `except` returning `KP1`, and no
operation on these paths can raise, which the totality of this function
mirrors. -/
def get_profileT (tbl : List (String × Profile)) (profile_id : ProfileIdArg) : Profile :=
  let pid := match profile_id with
    | .dictWithId idVal => idVal
    | .dictNoId => .str "kp1"
    | x => x
  let s := match pid with
    | .str s => s
    | _ => "kp1"
  match tbl.lookup s with
  | some p => p
  | none => KP1

/-- `get_profile` applied to the module-level `PROFILES` table. -/
def get_profile (profile_id : ProfileIdArg) : Profile :=
  get_profileT PROFILES profile_id

/-- Correction-factor dict returned by `get_dimensions_correction_factor`. -/
structure CorrectionFactors where
  water_surface : ℚ
  perimeter : ℚ
  wall_area : ℚ
  finishing_area : ℚ
  water_volume : ℚ
deriving DecidableEq

/-- Models the Python expression `a / t if t else 1`. -/
def pyDivOr1 (a t : ℚ) : ℚ := if t = 0 then 1 else a / t

/-- `get_dimensions_correction_factor` of `kp_profiles.py` (lines 205-232),
generalised over the profile table.  Each factor is the profile reference
value divided by the theoretical value computed from the caller's own
dimensions (guarded against a zero denominator). -/
def get_dimensions_correction_factorT (tbl : List (String × Profile))
    (profile_id : ProfileIdArg) (original_dimensions : Dims) : CorrectionFactors :=
  let profile := get_profileT tbl profile_id
  let length := original_dimensions.length / 1000
  let width := original_dimensions.width / 1000
  let depth := original_dimensions.depth / 1000
  let theoretical_water_surface := length * width
  let theoretical_perimeter := 2 * (length + width)
  let theoretical_wall_area := theoretical_perimeter * depth
  let theoretical_finishing_area := theoretical_water_surface + theoretical_wall_area
  let theoretical_water_volume := theoretical_water_surface * depth
  { water_surface := pyDivOr1 profile.basic_dimensions.water_surface theoretical_water_surface
    perimeter := pyDivOr1 profile.basic_dimensions.perimeter theoretical_perimeter
    wall_area := pyDivOr1 profile.basic_dimensions.wall_area theoretical_wall_area
    finishing_area := pyDivOr1 profile.basic_dimensions.finishing_area theoretical_finishing_area
    water_volume := pyDivOr1 profile.basic_dimensions.water_volume theoretical_water_volume }

/-- `get_dimensions_correction_factor` applied to the module table. -/
def get_dimensions_correction_factor (profile_id : ProfileIdArg)
    (original_dimensions : Dims) : CorrectionFactors :=
  get_dimensions_correction_factorT PROFILES profile_id original_dimensions

/-- The numeric (`_raw`) output of `calculate_basic_dimensions` in `app.py`
(lines 117-132). -/
structure RawDims where
  water_surface : ℚ
  perimeter : ℚ
  wall_area : ℚ
  finishing_area : ℚ
  water_volume : ℚ
  concrete_volume : ℚ
  earth_volume : ℚ
  outer_length : ℚ
  outer_width : ℚ
  outer_perimeter : ℚ
  pit_area : ℚ
  pit_length : ℚ
  pit_width : ℚ
  pit_depth : ℚ
deriving DecidableEq

/-- The five basic dimensions of a `RawDims` record, in the shape of a
profile's `basic_dimensions` block. -/
def basicOf (r : RawDims) : BasicDims :=
  ⟨r.water_surface, r.perimeter, r.wall_area, r.finishing_area, r.water_volume⟩

/-- `calculate_basic_dimensions` of `app.py` (lines 31-148).  Inputs are in
millimetres; when `correction_factors` is `none` the Python code substitutes
the all-ones dict (lines 99-107).  The returned dict couples each of these
numbers with a formatted display string; the numbers themselves are the
`_raw` block modelled here. -/
def calculate_basic_dimensions (length width depth wall_thickness : ℚ)
    (correction_factors : Option CorrectionFactors) : RawDims :=
  let length_m := length / 1000
  let width_m := width / 1000
  let depth_m := depth / 1000
  let wall_thickness_m := wall_thickness / 1000
  let outer_length_m := length_m + 2 * wall_thickness_m
  let outer_width_m := width_m + 2 * wall_thickness_m
  let inner_perimeter := 2 * (length_m + width_m)
  let outer_perimeter := 2 * (outer_length_m + outer_width_m)
  let water_surface := length_m * width_m
  let wall_area := inner_perimeter * depth_m
  let finishing_area := water_surface + wall_area
  let water_volume := water_surface * depth_m
  let outer_bottom_area := outer_length_m * outer_width_m
  let bottom_concrete_volume := outer_bottom_area * wall_thickness_m
  let walls_concrete_volume := inner_perimeter * depth_m * wall_thickness_m
  let concrete_volume := bottom_concrete_volume + walls_concrete_volume
  let pit_length := length_m + 2 * (wall_thickness_m + 0.55)
  let pit_width := width_m + 2 * (wall_thickness_m + 0.55)
  let pit_area := pit_length * pit_width
  let pit_depth := depth_m + wall_thickness_m + 0.2
  let earth_volume := pit_area * pit_depth
  let cf := correction_factors.getD ⟨1.0, 1.0, 1.0, 1.0, 1.0⟩
  { water_surface := water_surface * cf.water_surface
    perimeter := inner_perimeter * cf.perimeter
    wall_area := wall_area * cf.wall_area
    finishing_area := finishing_area * cf.finishing_area
    water_volume := water_volume * cf.water_volume
    concrete_volume := concrete_volume
    earth_volume := earth_volume
    outer_length := outer_length_m
    outer_width := outer_width_m
    outer_perimeter := outer_perimeter
    pit_area := pit_area
    pit_length := pit_length
    pit_width := pit_width
    pit_depth := pit_depth }

/-- Numeric output of `calculate_earthworks` in `app.py` (lines 195-204). -/
structure Earthworks where
  pit_depth : ℚ
  pit_length : ℚ
  pit_width : ℚ
  pit_area : ℚ
  pit_volume : ℚ
  backfill_volume : ℚ
  removal_volume : ℚ
  trucks_count : ℤ
deriving DecidableEq

/-- `calculate_earthworks` of `app.py` (lines 150-204): pit with an 800 mm
working margin per side, 200 mm depth allowance, removal volume equal to the
pit volume, and a truck count of `math.ceil(removal_volume / 7)`. -/
def calculate_earthworks (length width depth wall_thickness : ℚ) : Earthworks :=
  let length_m := length / 1000
  let width_m := width / 1000
  let depth_m := depth / 1000
  let wall_thickness_m := wall_thickness / 1000
  let pit_length := length_m + 2 * (wall_thickness_m + 0.8)
  let pit_width := width_m + 2 * (wall_thickness_m + 0.8)
  let pit_area := pit_length * pit_width
  let pit_depth := depth_m + wall_thickness_m + 0.2
  let pit_volume := pit_area * pit_depth
  let outer_length := length_m + 2 * wall_thickness_m
  let outer_width := width_m + 2 * wall_thickness_m
  let outer_depth := depth_m + wall_thickness_m
  let pool_volume := outer_length * outer_width * outer_depth
  let backfill_volume := pit_volume - pool_volume
  let removal_volume := pit_volume
  let trucks_count := ⌈removal_volume / 7⌉
  { pit_depth := pit_depth
    pit_length := pit_length
    pit_width := pit_width
    pit_area := pit_area
    pit_volume := pit_volume
    backfill_volume := backfill_volume
    removal_volume := removal_volume
    trucks_count := trucks_count }

/-- Numeric output of `calculate_concrete_works` in `app.py`. -/
structure ConcreteWorks where
  gravel_volume : ℚ
  base_concrete_volume : ℚ
  walls_concrete_volume : ℚ
  total_concrete_volume : ℚ
  reinforcement_weight : ℚ
deriving DecidableEq

/-- `calculate_concrete_works` of `app.py` (lines 206-257). -/
def calculate_concrete_works (length width depth wall_thickness : ℚ) : ConcreteWorks :=
  let length_m := length / 1000
  let width_m := width / 1000
  let depth_m := depth / 1000
  let wall_thickness_m := wall_thickness / 1000
  let outer_length := length_m + 2 * wall_thickness_m
  let outer_width := width_m + 2 * wall_thickness_m
  let base_area := outer_length * outer_width
  let base_concrete_volume := base_area * wall_thickness_m
  let inner_perimeter := 2 * (length_m + width_m)
  let walls_concrete_volume := inner_perimeter * depth_m * wall_thickness_m
  let total_concrete_volume := base_concrete_volume + walls_concrete_volume
  let gravel_volume := base_area * 0.1
  let reinforcement_weight := total_concrete_volume * 100
  { gravel_volume := gravel_volume
    base_concrete_volume := base_concrete_volume
    walls_concrete_volume := walls_concrete_volume
    total_concrete_volume := total_concrete_volume
    reinforcement_weight := reinforcement_weight }

/-- Numeric output of `calculate_formwork` in `app.py`. -/
structure Formwork where
  outer_formwork_area : ℚ
  inner_formwork_area : ℚ
  total_formwork_area : ℚ
  plywood_sheets_count : ℤ
  rebar_weight : ℚ
  timber_length : ℚ
deriving DecidableEq

/-- `calculate_formwork` of `app.py` (lines 259-323). -/
def calculate_formwork (length width depth wall_thickness : ℚ) : Formwork :=
  let length_m := length / 1000
  let width_m := width / 1000
  let depth_m := depth / 1000
  let wall_thickness_m := wall_thickness / 1000
  let outer_length := length_m + 2 * wall_thickness_m
  let outer_width := width_m + 2 * wall_thickness_m
  let outer_perimeter := 2 * (outer_length + outer_width)
  let outer_formwork_height := depth_m + wall_thickness_m
  let outer_formwork_area := outer_perimeter * outer_formwork_height
  let inner_perimeter := 2 * (length_m + width_m)
  let inner_formwork_area := inner_perimeter * depth_m
  let total_formwork_area := outer_formwork_area + inner_formwork_area
  let plywood_sheets_count := ⌈total_formwork_area / 2.25 * 1.2⌉
  let reinforcement_area := inner_perimeter * depth_m + length_m * width_m
  let rebar_weight := reinforcement_area * 5
  let timber_length := total_formwork_area * 3
  { outer_formwork_area := outer_formwork_area
    inner_formwork_area := inner_formwork_area
    total_formwork_area := total_formwork_area
    plywood_sheets_count := plywood_sheets_count
    rebar_weight := rebar_weight
    timber_length := timber_length }

/-- Python's builtin `round` on a rational: round half to even. -/
def pyRound (q : ℚ) : ℤ :=
  let f := ⌊q⌋
  let r := q - f
  if r < 1 / 2 then f
  else if r > 1 / 2 then f + 1
  else if 2 ∣ f then f else f + 1

/-- Totals returned by `calculate_kp_items` in `app.py` (lines 1138-1146).
The itemised `equipment_items`, `materials_items` and `works_items` lists are
display rows whose quantities are independently rounded reference figures;
they do not feed into the three totals (the code discards
`calculated_equipment_total` in favour of the scaled reference, lines
1039-1046), so only the totals are modelled. -/
structure KpItems where
  equipment_total : ℤ
  materials_total : ℤ
  works_total : ℤ
  total_cost : ℤ
deriving DecidableEq

/-- `calculate_kp_items` of `app.py` (lines 869-1146), generalised over the
profile table.  The three category totals are the profile's reference costs
scaled by weighted ratios of the user's theoretical dimensions to the
hard-coded reference dimensions of КП №1 (lines 911-929), then rounded with
Python's `round` (lines 1042-1046). -/
def calculate_kp_itemsT (tbl : List (String × Profile))
    (length width depth : ℚ) (pool_type : String) (profile_id : ProfileIdArg) : KpItems :=
  let profile := get_profileT tbl profile_id
  let reference_materials := (profile.costs.materials_total : ℚ)
  let reference_works := (profile.costs.works_total : ℚ)
  let reference_equipment := (profile.costs.equipment_total : ℚ)
  let length_m := length / 1000
  let width_m := width / 1000
  let depth_m := depth / 1000
  let water_surface := length_m * width_m
  let perimeter := 2 * (length_m + width_m)
  let wall_area := perimeter * depth_m
  let finishing_area := water_surface + wall_area
  let water_volume := water_surface * depth_m
  let reference_surface : ℚ := 32.0
  let reference_perimeter : ℚ := 26.0
  let reference_volume : ℚ := 48.0
  let reference_area : ℚ := 71.6
  let surface_ratio := water_surface / reference_surface
  let perimeter_ratio := perimeter / reference_perimeter
  let volume_ratio := water_volume / reference_volume
  let area_ratio := finishing_area / reference_area
  let materials_scale := (0.4 * surface_ratio) + (0.4 * volume_ratio) + (0.2 * perimeter_ratio)
  let works_scale := (0.5 * area_ratio) + (0.3 * volume_ratio) + (0.2 * perimeter_ratio)
  let equipment_scale := (0.2 * volume_ratio) + (0.1 * perimeter_ratio) + 0.7
  let equipment_total := pyRound (reference_equipment * equipment_scale)
  let materials_total := pyRound (reference_materials * materials_scale)
  let works_total := pyRound (reference_works * works_scale)
  let total_cost := equipment_total + materials_total + works_total
  let _ := wall_area
  let _ := pool_type
  { equipment_total := equipment_total
    materials_total := materials_total
    works_total := works_total
    total_cost := total_cost }

/-- `calculate_kp_items` applied to the module table. -/
def calculate_kp_items (length width depth : ℚ) (pool_type : String)
    (profile_id : ProfileIdArg) : KpItems :=
  calculate_kp_itemsT PROFILES length width depth pool_type profile_id

/-- Normalisation of `profile_id` performed inside `calculate` in `app.py`
(lines 1770-1777): a dict is reduced to its `"id"` entry (default `"kp1"`),
and a falsy or non-string value becomes `"kp1"`. -/
def profileIdToString (profile_id : ProfileIdArg) : String :=
  let pid := match profile_id with
    | .dictWithId idVal => idVal
    | .dictNoId => .str "kp1"
    | x => x
  match pid with
  | .str s => if s = "" then "kp1" else s
  | _ => "kp1"

/-- Result dict of `calculate` in `app.py` (lines 1950-1962).  The
`finishing_cost`, `materials_cost` and `works_cost` entries are
display-oriented breakdowns (fixed labelled figures and the profile's own
cost totals, formatted as strings); no numeric claim concerns them and they
are omitted here.  `costs` is rebuilt from the `kp_items` totals
(lines 1896-1911). -/
structure CalcResult where
  basic_dimensions : RawDims
  earthworks : Earthworks
  concrete_works : ConcreteWorks
  formwork : Formwork
  kp_items : KpItems
  costs : Costs
  profile_id : String
  dims : Dims
deriving DecidableEq

/-- `calculate` of `app.py` (lines 1749-1968), generalised over the profile
table.  Validation (line 1767) rejects any non-positive dimension with the
error string of the source; on the success path the correction factors are
computed from the user's own dimensions and the selected profile, and every
sub-calculation is total, so none of the source's `except` fallbacks fires. -/
def calculateT (tbl : List (String × Profile))
    (length width depth wall_thickness : ℚ) (profile_id : ProfileIdArg) :
    Except String CalcResult :=
  if ¬(0 < length ∧ 0 < width ∧ 0 < depth ∧ 0 < wall_thickness) then
    .error "Все размеры должны быть положительными числами"
  else
    let pid := profileIdToString profile_id
    let dimensions : Dims := ⟨length, width, depth, wall_thickness⟩
    let correction_factors := get_dimensions_correction_factorT tbl (.str pid) dimensions
    let basic_dims := calculate_basic_dimensions length width depth wall_thickness
      (some correction_factors)
    let earthworks := calculate_earthworks length width depth wall_thickness
    let concrete_works := calculate_concrete_works length width depth wall_thickness
    let formwork := calculate_formwork length width depth wall_thickness
    let pool_type := if pid = "kp2" then "tile" else if pid = "kp3" then "mosaic" else "liner"
    let kp_items := calculate_kp_itemsT tbl length width depth pool_type (.str pid)
    let costs : Costs :=
      ⟨kp_items.materials_total, kp_items.works_total, kp_items.equipment_total,
       kp_items.materials_total + kp_items.works_total + kp_items.equipment_total⟩
    .ok { basic_dimensions := basic_dims
          earthworks := earthworks
          concrete_works := concrete_works
          formwork := formwork
          kp_items := kp_items
          costs := costs
          profile_id := pid
          dims := dimensions }

/-- `calculate` applied to the module table. -/
def calculate (length width depth wall_thickness : ℚ) (profile_id : ProfileIdArg) :
    Except String CalcResult :=
  calculateT PROFILES length width depth wall_thickness profile_id

/-- The module-level state visible to a request handler: the only
module-level data the calculation chain reads is the profile table of
`kp_profiles.py` (the Flask `app`/logger objects carry no numeric state). -/
structure ModuleState where
  profiles : List (String × Profile)
deriving DecidableEq

/-- One invocation of `calculate` as a state transformer over the module
state.  The source performs no assignment to any module-level name
(`PROFILES` is built once at import, lines 167-171 of `kp_profiles.py`, and
only read thereafter), so the state component is returned unchanged. -/
def calculateS (s : ModuleState) (length width depth wall_thickness : ℚ)
    (profile_id : ProfileIdArg) : Except String CalcResult × ModuleState :=
  (calculateT s.profiles length width depth wall_thickness profile_id, s)

/-- The name `PROFILES` as resolved in the module namespace of `app.py`:
line 8 imports only `get_profile`, `get_profiles_list` and
`get_dimensions_correction_factor` from `kp_profiles`, and no statement of
`app.py` defines or imports `PROFILES`, so the name is unbound there and
evaluating it raises `NameError`. -/
def appPROFILES : Option (List (String × Profile)) := none

/-- An HTTP response of the profile route: status code, the `profile` body
field on success, the `error` body field on failure. -/
structure ProfileRouteResponse where
  status : ℕ
  profile : Option Profile
  error : Option String
deriving DecidableEq

/-- `get_profile_route` of `app.py` (lines 1595-1618).  The body evaluates
`profile_id not in PROFILES` first; because `PROFILES` is unbound in
`app.py` (see `appPROFILES`) this raises `NameError`, which the
`except Exception` handler turns into a 400 response, for every id. -/
def get_profile_route (profile_id : String) : ProfileRouteResponse :=
  match appPROFILES with
  | none => ⟨400, none, some "NameError: name PROFILES is not defined"⟩
  | some tbl =>
      if (tbl.lookup profile_id).isNone then
        ⟨400, none, some ("Неизвестный профиль КП: " ++ profile_id)⟩
      else
        ⟨200, some (get_profileT tbl (.str profile_id)), none⟩

/-- Kind of Python exception raised by `float(value)`. -/
inductive PyErr where
  | valueError
  | typeError
deriving DecidableEq

/-- A JSON value as it may appear in a request field: a number (booleans
behave the same), a string parseable as a float, a non-numeric string, or
`null` / array / object. -/
inductive JsonVal where
  | num (q : ℚ)
  | numStr (q : ℚ)
  | badStr (s : String)
  | null
  | arr
  | obj
deriving DecidableEq

/-- Python `float(value)`: numbers and numeric strings convert, a
non-numeric string raises `ValueError`, and a value that is neither string
nor number (`null`, array, object) raises `TypeError`. -/
def pyFloat : JsonVal → Except PyErr ℚ
  | .num q => .ok q
  | .numStr q => .ok q
  | .badStr _ => .error .valueError
  | .null => .error .typeError
  | .arr => .error .typeError
  | .obj => .error .typeError

/-- JSON body of `POST /calculate` (`app.py` lines 1234-1241): the four
dimension fields, plus the optional string-valued profile selectors read on
lines 1262-1279. -/
structure CalcRequest where
  length : Option JsonVal
  width : Option JsonVal
  depth : Option JsonVal
  wall_thickness : Option JsonVal
  profile_id : Option String
  profile : Option String
  pool_type : Option String
deriving DecidableEq

/-- An HTTP response of the calculate route. -/
structure CalcRouteResponse where
  status : ℕ
  result : Option CalcResult
  error : Option String
deriving DecidableEq

/-- The four `float(data[...])` conversions of `app.py` lines 1256-1259, in
source order: the first exception wins.  A missing field is modelled as
`null` here, but `calculate_route` checks presence before converting. -/
def convertFields (data : CalcRequest) : Except PyErr (ℚ × ℚ × ℚ × ℚ) := do
  let l ← pyFloat (data.length.getD .null)
  let w ← pyFloat (data.width.getD .null)
  let d ← pyFloat (data.depth.getD .null)
  let t ← pyFloat (data.wall_thickness.getD .null)
  pure (l, w, d, t)

/-- Resolution of the profile id in `calculate_route` (`app.py` lines
1262-1279): `profile_id` wins, else `profile` (default `"kp1"`), else, when
the result is falsy and `pool_type` is present, the pool-type mapping, with
a final fallback to `"kp1"` for a falsy result. -/
def routeProfileId (data : CalcRequest) : String :=
  let pid1 := match data.profile_id with
    | some s => s
    | none => data.profile.getD "kp1"
  let pid2 :=
    if data.pool_type.isSome ∧ pid1 = "" then
      match data.pool_type with
      | some "liner" => "kp1"
      | some "tile" => "kp2"
      | some "mosaic" => "kp3"
      | _ => pid1
    else pid1
  if pid2 = "" then "kp1" else pid2

/-- `calculate_route` of `app.py` (lines 1229-1295), handler of
`POST /calculate`.  A missing body is a 400; a missing required field is a
400 (lines 1250-1254); a `ValueError` from `float()` is a 400 (line 1291)
while any other exception — in particular the `TypeError` raised by
`float(None)` or `float([...])` — falls to the generic handler and is a 500
(lines 1293-1295); an `"error"` result from `calculate` (non-positive
dimensions) is a 400; otherwise the result is returned with status 200. -/
def calculate_route (body : Option CalcRequest) : CalcRouteResponse :=
  match body with
  | none => ⟨400, none, some "Отсутствуют данные JSON"⟩
  | some data =>
    if data.length.isNone then ⟨400, none, some "Отсутствует параметр length"⟩
    else if data.width.isNone then ⟨400, none, some "Отсутствует параметр width"⟩
    else if data.depth.isNone then ⟨400, none, some "Отсутствует параметр depth"⟩
    else if data.wall_thickness.isNone then
      ⟨400, none, some "Отсутствует параметр wall_thickness"⟩
    else
      match convertFields data with
      | .error .valueError => ⟨400, none, some "Ошибка преобразования типов"⟩
      | .error .typeError =>
          ⟨500, none, some "TypeError: float() argument must be a string or a real number"⟩
      | .ok (l, w, d, t) =>
          match calculate l w d t (.str (routeProfileId data)) with
          | .error e => ⟨400, none, some e⟩
          | .ok r => ⟨200, some r, none⟩

/-- All four required dimension fields are present in the request body
(`app.py` lines 1250-1254 check exactly this, in order). -/
def hasAllDims (data : CalcRequest) : Prop :=
  data.length.isSome = true ∧ data.width.isSome = true ∧
  data.depth.isSome = true ∧ data.wall_thickness.isSome = true

/-- A well-formed request: all four dimensions are JSON numbers, positive. -/
def c8OkRequest : CalcRequest :=
  ⟨some (.num 8000), some (.num 4000), some (.num 1500), some (.num 200),
   none, none, none⟩

/-- A request whose `length` is JSON `null` — present but not numeric. -/
def c8NullRequest : CalcRequest :=
  ⟨some .null, some (.num 4000), some (.num 1500), some (.num 200),
   none, none, none⟩

theorem profileIdToString_str (s : String) (h : s ≠ "") :
    profileIdToString (.str s) = s := by
  simp [profileIdToString, h]

theorem get_profile_kp1 : get_profile (.str "kp1") = KP1 := rfl

theorem get_profile_kp2 : get_profile (.str "kp2") = KP2 := rfl

theorem get_profile_kp3 : get_profile (.str "kp3") = KP3 := rfl

/-- Core algebraic fact behind the correction-factor mechanism: for positive
dimensions each theoretical value is nonzero, so scaling it by
`reference / theoretical` gives back the profile's reference value. -/
theorem corrected_eq_reference (tbl : List (String × Profile)) (pid : ProfileIdArg)
    (l w d t : ℚ) (hl : 0 < l) (hw : 0 < w) (hd : 0 < d) :
    basicOf (calculate_basic_dimensions l w d t
      (some (get_dimensions_correction_factorT tbl pid ⟨l, w, d, t⟩))) =
    (get_profileT tbl pid).basic_dimensions := by
  have hws : l / 1000 * (w / 1000) ≠ 0 := by positivity
  have hp : 2 * (l / 1000 + w / 1000) ≠ 0 := by positivity
  have hwa : 2 * (l / 1000 + w / 1000) * (d / 1000) ≠ 0 := by positivity
  have hfa : l / 1000 * (w / 1000) + 2 * (l / 1000 + w / 1000) * (d / 1000) ≠ 0 := by
    positivity
  have hwv : l / 1000 * (w / 1000) * (d / 1000) ≠ 0 := by positivity
  simp only [calculate_basic_dimensions, get_dimensions_correction_factorT, basicOf,
    pyDivOr1, Option.getD_some]
  ext
  · simp only []
    rw [if_neg hws]
    field_simp
    ring
  · simp only []
    rw [if_neg hp]
    field_simp
    ring
  · simp only []
    rw [if_neg hwa]
    field_simp
    ring
  · simp only []
    rw [if_neg hfa]
    field_simp
    ring
  · simp only []
    rw [if_neg hwv]
    field_simp
    ring

/-- On positive dimensions `calculate` succeeds and the five basic
dimensions of its result are exactly the selected profile's reference
`basic_dimensions`. -/
theorem calculate_ok_basic (l w d t : ℚ) (pid : String)
    (hl : 0 < l) (hw : 0 < w) (hd : 0 < d) (ht : 0 < t) (hne : pid ≠ "") :
    ∃ r, calculate l w d t (.str pid) = .ok r ∧
      basicOf r.basic_dimensions = (get_profile (.str pid)).basic_dimensions := by
  unfold calculate calculateT
  rw [if_neg (not_not_intro ⟨hl, hw, hd, ht⟩), profileIdToString_str pid hne]
  exact ⟨_, rfl, corrected_eq_reference PROFILES (.str pid) l w d t hl hw hd⟩

/-- C1 (counterexample): for length=8000, width=4000, depth=1500,
wall_thickness=200 and profile kp1, the corrected perimeter returned by the
calculation is 26.0 m — the profile's reference perimeter — and not 24.0 m
as the claim states. -/
theorem c1_perimeter_is_26_not_24 :
    ∃ r, calculate 8000 4000 1500 200 (.str "kp1") = .ok r ∧
      r.basic_dimensions.perimeter = 26 ∧ ¬ r.basic_dimensions.perimeter = 24 := by
  obtain ⟨r, hok, hb⟩ :=
    calculate_ok_basic 8000 4000 1500 200 "kp1" (by decide) (by decide) (by decide)
      (by decide) (by decide)
  rw [get_profile_kp1] at hb
  have h2 := congrArg BasicDims.perimeter hb
  simp only [basicOf] at h2
  have h26 : r.basic_dimensions.perimeter = 26 := by rw [h2]; norm_num [KP1]
  exact ⟨r, hok, h26, by rw [h26]; norm_num⟩

/-- C1 (amended): for length=8000mm, width=4000mm, depth=1500mm,
wall_thickness=200mm with profile kp1, the calculation with correction
factors applied returns water_surface = 32.0 m², perimeter = 26.0 m,
wall_area = 39.6 m² and finishing_area = 71.6 m², matching the profile's own
reference values (the profile's reference perimeter is 26.0 m, not 24.0 m). -/
theorem c1_kp1_scenario :
    ∃ r, calculate 8000 4000 1500 200 (.str "kp1") = .ok r ∧
      r.basic_dimensions.water_surface = 32 ∧
      r.basic_dimensions.perimeter = 26 ∧
      r.basic_dimensions.wall_area = 39.6 ∧
      r.basic_dimensions.finishing_area = 71.6 ∧
      basicOf r.basic_dimensions = KP1.basic_dimensions := by
  obtain ⟨r, hok, hb⟩ :=
    calculate_ok_basic 8000 4000 1500 200 "kp1" (by decide) (by decide) (by decide)
      (by decide) (by decide)
  rw [get_profile_kp1] at hb
  have h1 := congrArg BasicDims.water_surface hb
  have h2 := congrArg BasicDims.perimeter hb
  have h3 := congrArg BasicDims.wall_area hb
  have h4 := congrArg BasicDims.finishing_area hb
  simp only [basicOf] at h1 h2 h3 h4
  refine ⟨r, hok, ?_, ?_, ?_, ?_, hb⟩
  · rw [h1]; norm_num [KP1]
  · rw [h2]; norm_num [KP1]
  · rw [h3]; norm_num [KP1]
  · rw [h4]; norm_num [KP1]

/-- C2: for every positive input and every known profile id, `calculate`
succeeds and the five corrected basic dimensions of its result equal the
profile's fixed reference `basic_dimensions` exactly, independent of the
input dimensions. -/
theorem c2_corrected_dims_are_reference (l w d t : ℚ) (pid : String)
    (hl : 0 < l) (hw : 0 < w) (hd : 0 < d) (ht : 0 < t)
    (hpid : pid = "kp1" ∨ pid = "kp2" ∨ pid = "kp3") :
    ∃ r, calculate l w d t (.str pid) = .ok r ∧
      basicOf r.basic_dimensions = (get_profile (.str pid)).basic_dimensions := by
  have hne : pid ≠ "" := by rcases hpid with h | h | h <;> subst h <;> decide
  exact calculate_ok_basic l w d t pid hl hw hd ht hne

/-- C2 (witness): the theorem applied at length=3000, width=2000,
depth=1000, wall_thickness=150 with profile kp2. -/
theorem c2_corrected_dims_are_reference_witness :
    ∃ r, calculate 3000 2000 1000 150 (.str "kp2") = .ok r ∧
      basicOf r.basic_dimensions = (get_profile (.str "kp2")).basic_dimensions :=
  c2_corrected_dims_are_reference 3000 2000 1000 150 "kp2" (by decide) (by decide)
    (by decide) (by decide) (Or.inr (Or.inl rfl))

/-- C3 (counterexample): with profile kp2's correction factors, at
length=8000, width=3000, depth=1500, wall_thickness=200 the corrected
finishing_area is 57.0 m² while corrected water_surface + wall_area is
56.0 m² (kp2's reference finishing_area is not the sum of its reference
surface and wall areas), so the additive invariant fails for "any
profile's" correction factors. -/
theorem c3_kp2_breaks_additivity :
    (calculate_basic_dimensions 8000 3000 1500 200
      (some (get_dimensions_correction_factor (.str "kp2")
        ⟨8000, 3000, 1500, 200⟩))).finishing_area = 57 ∧
    (calculate_basic_dimensions 8000 3000 1500 200
      (some (get_dimensions_correction_factor (.str "kp2")
        ⟨8000, 3000, 1500, 200⟩))).water_surface +
    (calculate_basic_dimensions 8000 3000 1500 200
      (some (get_dimensions_correction_factor (.str "kp2")
        ⟨8000, 3000, 1500, 200⟩))).wall_area = 56 ∧
    ¬ ((calculate_basic_dimensions 8000 3000 1500 200
      (some (get_dimensions_correction_factor (.str "kp2")
        ⟨8000, 3000, 1500, 200⟩))).finishing_area =
      (calculate_basic_dimensions 8000 3000 1500 200
        (some (get_dimensions_correction_factor (.str "kp2")
          ⟨8000, 3000, 1500, 200⟩))).water_surface +
      (calculate_basic_dimensions 8000 3000 1500 200
        (some (get_dimensions_correction_factor (.str "kp2")
          ⟨8000, 3000, 1500, 200⟩))).wall_area) := by
  have hp : get_profileT PROFILES (.str "kp2") = KP2 := rfl
  norm_num [calculate_basic_dimensions, get_dimensions_correction_factor,
    get_dimensions_correction_factorT, hp, pyDivOr1, KP2]

/-- C3 (amended): for all positive inputs, finishing_area equals
water_surface + wall_area exactly both without correction factors and with
profile kp1's correction factors (kp1's reference finishing_area 71.6 is the
sum 32.0 + 39.6); with kp2's or kp3's factors the invariant fails, since
their reference finishing_area 57.0 differs from 23.0 + 33.0 = 56.0. -/
theorem c3_additivity (l w d t : ℚ) (hl : 0 < l) (hw : 0 < w) (hd : 0 < d) :
    (calculate_basic_dimensions l w d t none).finishing_area =
      (calculate_basic_dimensions l w d t none).water_surface +
      (calculate_basic_dimensions l w d t none).wall_area ∧
    (calculate_basic_dimensions l w d t
        (some (get_dimensions_correction_factor (.str "kp1")
          ⟨l, w, d, t⟩))).finishing_area =
      (calculate_basic_dimensions l w d t
        (some (get_dimensions_correction_factor (.str "kp1")
          ⟨l, w, d, t⟩))).water_surface +
      (calculate_basic_dimensions l w d t
        (some (get_dimensions_correction_factor (.str "kp1")
          ⟨l, w, d, t⟩))).wall_area := by
  constructor
  · norm_num [calculate_basic_dimensions]
  · have h := corrected_eq_reference PROFILES (.str "kp1") l w d t hl hw hd
    have h1 := congrArg BasicDims.water_surface h
    have h3 := congrArg BasicDims.wall_area h
    have h4 := congrArg BasicDims.finishing_area h
    simp only [basicOf] at h1 h3 h4
    simp only [get_dimensions_correction_factor]
    rw [h1, h3, h4]
    have hp : get_profileT PROFILES (.str "kp1") = KP1 := rfl
    norm_num [hp, KP1]

/-- C3 (amended, witness): the theorem applied at length=3000, width=2000,
depth=1000, wall_thickness=150. -/
theorem c3_additivity_witness :
    (calculate_basic_dimensions 3000 2000 1000 150 none).finishing_area =
      (calculate_basic_dimensions 3000 2000 1000 150 none).water_surface +
      (calculate_basic_dimensions 3000 2000 1000 150 none).wall_area ∧
    (calculate_basic_dimensions 3000 2000 1000 150
        (some (get_dimensions_correction_factor (.str "kp1")
          ⟨3000, 2000, 1000, 150⟩))).finishing_area =
      (calculate_basic_dimensions 3000 2000 1000 150
        (some (get_dimensions_correction_factor (.str "kp1")
          ⟨3000, 2000, 1000, 150⟩))).water_surface +
      (calculate_basic_dimensions 3000 2000 1000 150
        (some (get_dimensions_correction_factor (.str "kp1")
          ⟨3000, 2000, 1000, 150⟩))).wall_area :=
  c3_additivity 3000 2000 1000 150 (by decide) (by decide) (by decide)

/-- C4 (code evaluated at the failing input): `GET /get_profile/kp1` — a
known profile id — returns HTTP 400 with no profile body, and so does an
unknown id, because `app.py` never imports `PROFILES` and the route's first
statement raises `NameError` for every id.  The claim (and the route's own
docstring) say a known id returns the full profile record. -/
theorem c4_route_400_for_every_id :
    (get_profile_route "kp1").status = 400 ∧
    (get_profile_route "kp1").profile = none ∧
    (get_profile_route "kp2").status = 400 ∧
    (get_profile_route "kp3").status = 400 ∧
    (get_profile_route "doesnotexist").status = 400 :=
  ⟨rfl, rfl, rfl, rfl, rfl⟩

/-- C5: the `get_profile` lookup returns `KP1` for an unknown string id, for
a non-dict non-string value, for a dict lacking an `"id"` entry and for a
dict whose `"id"` entry is not a string; for a known id it returns that
profile's record.  The function is total (the source guards every path and
ends in a catch-all returning `KP1`), so it never raises. -/
theorem c5_get_profile_fallback (s : String) (v : ProfileIdArg) (p : Profile) :
    (PROFILES.lookup s = none → get_profile (.str s) = KP1) ∧
    get_profile .other = KP1 ∧
    get_profile .dictNoId = KP1 ∧
    ((∀ u, v ≠ .str u) → get_profile (.dictWithId v) = KP1) ∧
    (PROFILES.lookup s = some p → get_profile (.str s) = p) := by
  refine ⟨?_, rfl, rfl, ?_, ?_⟩
  · intro hs
    simp [get_profile, get_profileT, hs]
  · intro hv
    cases v with
    | str u => exact absurd rfl (hv u)
    | dictWithId u => rfl
    | dictNoId => rfl
    | other => rfl
  · intro hs
    simp [get_profile, get_profileT, hs]

/-- C5 (witness): the theorem applied at the unknown id "doesnotexist", the
known id "kp2", and a dict whose `"id"` entry is itself a dict. -/
theorem c5_get_profile_fallback_witness :
    get_profile (.str "doesnotexist") = KP1 ∧
    get_profile (.str "kp2") = KP2 ∧
    get_profile (.dictWithId .dictNoId) = KP1 :=
  ⟨(c5_get_profile_fallback "doesnotexist" .other KP1).1 (by decide),
   (c5_get_profile_fallback "kp2" .other KP2).2.2.2.2 rfl,
   (c5_get_profile_fallback "kp2" .dictNoId KP2).2.2.2.1
     (fun u h => by cases h)⟩

/-- C6: for all positive inputs the truck count of `calculate_earthworks` is
the ceiling of the removal volume (the full pit volume, written out in terms
of the inputs) divided by the truck capacity 7 m³; and whenever the removal
volume is 97.3 m³ the truck count is 14. -/
theorem c6_trucks_are_ceiling (l w d t : ℚ)
    (hl : 0 < l) (hw : 0 < w) (hd : 0 < d) (ht : 0 < t) :
    (calculate_earthworks l w d t).trucks_count =
      ⌈(l / 1000 + 2 * (t / 1000 + 0.8)) * (w / 1000 + 2 * (t / 1000 + 0.8)) *
        (d / 1000 + t / 1000 + 0.2) / 7⌉ ∧
    ((calculate_earthworks l w d t).removal_volume = 97.3 →
      (calculate_earthworks l w d t).trucks_count = 14) := by
  constructor
  · rfl
  · intro h
    have h2 : (calculate_earthworks l w d t).trucks_count =
        ⌈(calculate_earthworks l w d t).removal_volume / 7⌉ := rfl
    rw [h2, h]
    have h3 : (97.3 : ℚ) / 7 = 13.9 := by norm_num
    rw [h3]
    rw [show (14 : ℤ) = ⌈(14 : ℚ)⌉ from by norm_num]
    apply le_antisymm
    · exact Int.ceil_le_ceil (by norm_num)
    · rw [Int.le_ceil_iff]
      norm_num
  
/-- C6 (witness): at length=7600, width=2465, depth=1400,
wall_thickness=400 the pit volume is exactly 97.3 m³ and the theorem yields
14 trucks. -/
theorem c6_trucks_are_ceiling_witness :
    (calculate_earthworks 7600 2465 1400 400).trucks_count = 14 :=
  (c6_trucks_are_ceiling 7600 2465 1400 400 (by decide) (by decide) (by decide)
    (by decide)).2 (by norm_num [calculate_earthworks])

/-- C7: `materials_total` of `calculate_kp_items` is the profile reference
materials cost scaled by `0.4×surface_ratio + 0.4×volume_ratio +
0.2×perimeter_ratio`, the ratios dividing the user's theoretical water
surface, water volume and perimeter by the fixed reference values 32.0 m²,
48.0 m³ and 26.0 m, rounded with Python's `round`. -/
theorem c7_materials_total_formula (l w d : ℚ) (pt : String) (pid : ProfileIdArg) :
    (calculate_kp_items l w d pt pid).materials_total =
      pyRound (((get_profile pid).costs.materials_total : ℚ) *
        ((0.4 * (l / 1000 * (w / 1000) / 32.0)) +
         (0.4 * (l / 1000 * (w / 1000) * (d / 1000) / 48.0)) +
         (0.2 * (2 * (l / 1000 + w / 1000) / 26.0)))) := rfl

/-- C9: for all positive (length, width, depth), the water surface computed
by `calculate_basic_dimensions` (no correction factors, the default) is
exactly the product of the inputs converted from millimetres to metres. -/
theorem c9_water_surface_exact (l w d t : ℚ) (hl : 0 < l) (hw : 0 < w) (hd : 0 < d) :
    (calculate_basic_dimensions l w d t none).water_surface = l / 1000 * (w / 1000) := by
  norm_num [calculate_basic_dimensions]

/-- C9 (witness): the theorem applied at length=8000, width=4000,
depth=1500, wall_thickness=200. -/
theorem c9_water_surface_exact_witness :
    (calculate_basic_dimensions 8000 4000 1500 200 none).water_surface =
      8000 / 1000 * (4000 / 1000) :=
  c9_water_surface_exact 8000 4000 1500 200 (by decide) (by decide) (by decide)

/-- C10: running `calculate` twice with identical input over the module
state (the profile table, the only module-level data the computation reads)
yields identical results, and the first run leaves the state unchanged: the
embedding threads the state explicitly and the source performs no write to
it, so the second run starts from the same state and is the same pure
computation. -/
theorem c10_calculate_idempotent (s : ModuleState) (l w d t : ℚ) (pid : ProfileIdArg) :
    (calculateS s l w d t pid).1 =
      (calculateS (calculateS s l w d t pid).2 l w d t pid).1 ∧
    (calculateS s l w d t pid).2 = s :=
  ⟨rfl, rfl⟩

/-- On positive dimensions the validation of `calculate` passes and the
result is a success value. -/
theorem calculateT_isOk (tbl : List (String × Profile)) (l w d t : ℚ)
    (pid : ProfileIdArg) (h : 0 < l ∧ 0 < w ∧ 0 < d ∧ 0 < t) :
    ∃ r, calculateT tbl l w d t pid = .ok r := by
  unfold calculateT
  rw [if_neg (not_not_intro h)]
  exact ⟨_, rfl⟩

/-- When some dimension is non-positive, `calculate` returns the source's
validation error. -/
theorem calculateT_isError (tbl : List (String × Profile)) (l w d t : ℚ)
    (pid : ProfileIdArg) (h : ¬(0 < l ∧ 0 < w ∧ 0 < d ∧ 0 < t)) :
    calculateT tbl l w d t pid =
      .error "Все размеры должны быть положительными числами" := by
  unfold calculateT
  rw [if_pos h]

/-- C8 (amended): `POST /calculate` returns 400 when the body is missing,
when any of the four fields is missing, when the first failing `float()`
conversion raises `ValueError` (non-numeric string), and when all four
convert but some value is non-positive; it returns 200 when all four convert
to positive numbers.  A present field whose value is not a string and not a
number (JSON null, array, object) makes `float()` raise `TypeError`, which
the route's generic handler turns into a 500, not a 400. -/
theorem c8_route_validation (data : CalcRequest) :
    ((data.length = none ∨ data.width = none ∨ data.depth = none ∨
        data.wall_thickness = none) →
      (calculate_route (some data)).status = 400) ∧
    (hasAllDims data → convertFields data = .error .valueError →
      (calculate_route (some data)).status = 400) ∧
    (hasAllDims data → convertFields data = .error .typeError →
      (calculate_route (some data)).status = 500) ∧
    (∀ l w d t : ℚ, hasAllDims data → convertFields data = .ok (l, w, d, t) →
      ((0 < l ∧ 0 < w ∧ 0 < d ∧ 0 < t →
          (calculate_route (some data)).status = 200) ∧
       (¬(0 < l ∧ 0 < w ∧ 0 < d ∧ 0 < t) →
          (calculate_route (some data)).status = 400))) := by
  obtain ⟨dl, dw, dd, dt, p1, p2, p3⟩ := data
  refine ⟨?_, ?_, ?_, ?_⟩
  · rintro (h | h | h | h) <;> subst h <;>
      simp [calculate_route, apply_ite CalcRouteResponse.status]
  · rintro ⟨h1, h2, h3, h4⟩ hconv
    simp only [Option.isSome_iff_exists] at h1 h2 h3 h4
    obtain ⟨vl, rfl⟩ := h1
    obtain ⟨vw, rfl⟩ := h2
    obtain ⟨vd, rfl⟩ := h3
    obtain ⟨vt, rfl⟩ := h4
    simp [calculate_route, hconv]
  · rintro ⟨h1, h2, h3, h4⟩ hconv
    simp only [Option.isSome_iff_exists] at h1 h2 h3 h4
    obtain ⟨vl, rfl⟩ := h1
    obtain ⟨vw, rfl⟩ := h2
    obtain ⟨vd, rfl⟩ := h3
    obtain ⟨vt, rfl⟩ := h4
    simp [calculate_route, hconv]
  · rintro l w d t ⟨h1, h2, h3, h4⟩ hconv
    simp only [Option.isSome_iff_exists] at h1 h2 h3 h4
    obtain ⟨vl, rfl⟩ := h1
    obtain ⟨vw, rfl⟩ := h2
    obtain ⟨vd, rfl⟩ := h3
    obtain ⟨vt, rfl⟩ := h4
    constructor
    · intro hpos
      obtain ⟨r, hr⟩ := calculateT_isOk PROFILES l w d t
        (.str (routeProfileId ⟨some vl, some vw, some vd, some vt, p1, p2, p3⟩)) hpos
      simp [calculate_route, hconv, calculate, hr]
    · intro hneg
      have hr := calculateT_isError PROFILES l w d t
        (.str (routeProfileId ⟨some vl, some vw, some vd, some vt, p1, p2, p3⟩)) hneg
      simp [calculate_route, hconv, calculate, hr]

/-- C8 (witness): the theorem applied to a request with all four fields
positive numbers gives status 200. -/
theorem c8_route_validation_witness :
    (calculate_route (some c8OkRequest)).status = 200 :=
  ((c8_route_validation c8OkRequest).2.2.2 8000 4000 1500 200
    ⟨rfl, rfl, rfl, rfl⟩ rfl).1 (by decide)

/-- C8 (counterexample): a request whose `length` is JSON `null` — a
present, non-numeric field — yields HTTP 500, not 400 as the claim
states: `float(None)` raises `TypeError`, which only the generic
`except Exception` handler catches. -/
theorem c8_null_length_gives_500 :
    (calculate_route (some c8NullRequest)).status = 500 ∧
    ¬ (calculate_route (some c8NullRequest)).status = 400 :=
  ⟨rfl, by decide⟩
